import Mathlib

/-!
Verification of the kinematics core of a 5-axis gantry machine simulator.

The development shallowly embeds, over the real numbers:
  * the THREE.js matrix/vector primitives the code calls
    (Matrix4.makeTranslation / makeRotationZ / makeRotationX / multiply,
    Vector3.applyMatrix4 / sub, MathUtils.degToRad);
  * the machine data model (types.ts): MachineState, MachineLimits,
    DEFAULT_LIMITS, INITIAL_STATE;
  * the forward-kinematics readout (MachineScene.tsx: calculateTCP,
    the MatrixDisplay home-relative translation and delta, cleanFloat);
  * the inverse tool-offset and TCP-space write (ControlPanel.tsx:
    delta, updateTCP, the numeric-input handler of AxisControl);
  * the application controller (App: updateState, the animate orbit frame);
  * the scene remap helper (MachineScene.tsx: mapRange).
-/

open Real

/-- THREE.MathUtils.degToRad: degrees times pi over 180. -/
noncomputable def degToRad (degrees : ℝ) : ℝ := degrees * (Real.pi / 180)

/-- A 3-component vector, as THREE.Vector3 restricted to the operations used. -/
@[ext] structure Vec3 where
  (x y z : ℝ)


/-- A 4x4 homogeneous matrix, as THREE.Matrix4.  Field mij is the entry at
row i, column j; THREE stores the same data column-major, so its
elements[12], elements[13], elements[14] are m03, m13, m23 here. -/
@[ext] structure Mat4 where
  (m00 m01 m02 m03 : ℝ)
  (m10 m11 m12 m13 : ℝ)
  (m20 m21 m22 m23 : ℝ)
  (m30 m31 m32 m33 : ℝ)


/-- new THREE.Matrix4(): the identity matrix. -/
def Mat4.identity : Mat4 :=
  ⟨1, 0, 0, 0,
   0, 1, 0, 0,
   0, 0, 1, 0,
   0, 0, 0, 1⟩

/-- Matrix4.makeTranslation(x, y, z). -/
def makeTranslation (x y z : ℝ) : Mat4 :=
  ⟨1, 0, 0, x,
   0, 1, 0, y,
   0, 0, 1, z,
   0, 0, 0, 1⟩

/-- Matrix4.makeRotationZ(theta). -/
noncomputable def makeRotationZ (theta : ℝ) : Mat4 :=
  ⟨Real.cos theta, -Real.sin theta, 0, 0,
   Real.sin theta,  Real.cos theta, 0, 0,
   0, 0, 1, 0,
   0, 0, 0, 1⟩

/-- Matrix4.makeRotationX(theta). -/
noncomputable def makeRotationX (theta : ℝ) : Mat4 :=
  ⟨1, 0, 0, 0,
   0, Real.cos theta, -Real.sin theta, 0,
   0, Real.sin theta,  Real.cos theta, 0,
   0, 0, 0, 1⟩

/-- Matrix4.multiplyMatrices: the full 4x4 matrix product (a.multiply(b)
post-multiplies a by b, i.e. computes a * b). -/
def Mat4.mul (a b : Mat4) : Mat4 :=
  ⟨a.m00*b.m00 + a.m01*b.m10 + a.m02*b.m20 + a.m03*b.m30,
   a.m00*b.m01 + a.m01*b.m11 + a.m02*b.m21 + a.m03*b.m31,
   a.m00*b.m02 + a.m01*b.m12 + a.m02*b.m22 + a.m03*b.m32,
   a.m00*b.m03 + a.m01*b.m13 + a.m02*b.m23 + a.m03*b.m33,
   a.m10*b.m00 + a.m11*b.m10 + a.m12*b.m20 + a.m13*b.m30,
   a.m10*b.m01 + a.m11*b.m11 + a.m12*b.m21 + a.m13*b.m31,
   a.m10*b.m02 + a.m11*b.m12 + a.m12*b.m22 + a.m13*b.m32,
   a.m10*b.m03 + a.m11*b.m13 + a.m12*b.m23 + a.m13*b.m33,
   a.m20*b.m00 + a.m21*b.m10 + a.m22*b.m20 + a.m23*b.m30,
   a.m20*b.m01 + a.m21*b.m11 + a.m22*b.m21 + a.m23*b.m31,
   a.m20*b.m02 + a.m21*b.m12 + a.m22*b.m22 + a.m23*b.m32,
   a.m20*b.m03 + a.m21*b.m13 + a.m22*b.m23 + a.m23*b.m33,
   a.m30*b.m00 + a.m31*b.m10 + a.m32*b.m20 + a.m33*b.m30,
   a.m30*b.m01 + a.m31*b.m11 + a.m32*b.m21 + a.m33*b.m31,
   a.m30*b.m02 + a.m31*b.m12 + a.m32*b.m22 + a.m33*b.m32,
   a.m30*b.m03 + a.m31*b.m13 + a.m32*b.m23 + a.m33*b.m33⟩

/-- Vector3.applyMatrix4: multiplies the vector (extended with w = 1) by the
matrix and performs the perspective divide, exactly as THREE does. -/
noncomputable def Vec3.applyMatrix4 (v : Vec3) (e : Mat4) : Vec3 :=
  let w := 1 / (e.m30 * v.x + e.m31 * v.y + e.m32 * v.z + e.m33)
  ⟨(e.m00 * v.x + e.m01 * v.y + e.m02 * v.z + e.m03) * w,
   (e.m10 * v.x + e.m11 * v.y + e.m12 * v.z + e.m13) * w,
   (e.m20 * v.x + e.m21 * v.y + e.m22 * v.z + e.m23) * w⟩

/-- Vector3.sub: componentwise difference. -/
def Vec3.sub (a b : Vec3) : Vec3 := ⟨a.x - b.x, a.y - b.y, a.z - b.z⟩

/-- Vector3.setFromMatrixPosition: reads elements 12, 13, 14, i.e. the
translation column. -/
def setFromMatrixPosition (m : Mat4) : Vec3 := ⟨m.m03, m.m13, m.m23⟩

/-- Modelled from the spec: the constant TOOL_LENGTH_OFFSET is imported from
types.ts by both components, but its defining line is not among the provided
sources; the spec's concrete scenario fixes it to 25 (millimetres). -/
def TOOL_LENGTH_OFFSET : ℝ := 25

/-- types.ts MachineState: five independent scalar axes. -/
@[ext] structure MachineState where
  (x y z a b : ℝ)


/-- A {min, max} bound pair, as stored in MachineLimits. -/
structure AxisRange where
  (min max : ℝ)


/-- types.ts MachineLimits: one bound pair per axis. -/
structure MachineLimits where
  (x y z a b : AxisRange)


/-- types.ts DEFAULT_LIMITS. -/
def DEFAULT_LIMITS : MachineLimits :=
  ⟨⟨0, 100⟩, ⟨0, 100⟩, ⟨0, 100⟩, ⟨-45, 45⟩, ⟨-180, 180⟩⟩

/-- types.ts INITIAL_STATE: declared with z = 80, then corrected in the same
file by the assignment INITIAL_STATE.z = 10, so the exported value has z = 10. -/
def INITIAL_STATE : MachineState := ⟨50, 50, 10, 0, 0⟩

/-- MachineScene.tsx calculateTCP: chain Base * RotB * RotA * Tool starting
from a fresh identity matrix, with B negated (compass convention) and the
tool offset along negative Z. -/
noncomputable def calculateTCP (x y z a b : ℝ) : Mat4 :=
  let matTrans := makeTranslation x y z
  let matRotB := makeRotationZ (degToRad (-b))
  let matRotA := makeRotationX (degToRad a)
  let matTool := makeTranslation 0 0 (-TOOL_LENGTH_OFFSET)
  (((Mat4.identity.mul matTrans).mul matRotB).mul matRotA).mul matTool

/-- MatrixDisplay: the home position vector, setFromMatrixPosition of the
pose at the all-zero state. -/
noncomputable def homePos : Vec3 := setFromMatrixPosition (calculateTCP 0 0 0 0 0)

/-- MatrixDisplay: the home-relative translation (dX, dY, dZ) that replaces
the translation column of the display matrix. -/
noncomputable def relTranslation (x y z a b : ℝ) : Vec3 :=
  let currentMat := calculateTCP x y z a b
  ⟨currentMat.m03 - homePos.x, currentMat.m13 - homePos.y, currentMat.m23 - homePos.z⟩

/-- MatrixDisplay: the displayed matrix, the current pose with its
translation column replaced by the home-relative translation. -/
noncomputable def displayMatrix (x y z a b : ℝ) : Mat4 :=
  let d := relTranslation x y z a b
  { calculateTCP x y z a b with m03 := d.x, m13 := d.y, m23 := d.z }

/-- MatrixDisplay: the delta readout (diffX, diffY, diffZ), the home-relative
translation minus the raw motor position. -/
noncomputable def matrixDisplayDelta (x y z a b : ℝ) : Vec3 :=
  let d := relTranslation x y z a b
  ⟨d.x - x, d.y - y, d.z - z⟩

/-- MatrixDisplay cleanFloat: magnitudes below 0.001 are normalized to 0. -/
noncomputable def cleanFloat (val : ℝ) : ℝ :=
  if |val| < 0.001 then 0 else val

/-- Numeric model of toFixed(2) as used by the matrix readout: round to two
decimal places. -/
noncomputable def toFixed2 (val : ℝ) : ℝ := (round (val * 100) : ℤ) / 100

/-- ControlPanel delta: the rotated tool vector minus the home tool vector,
computed by applying RotA then RotB to (0, 0, -TOOL_LENGTH_OFFSET). -/
noncomputable def ControlPanel.delta (a b : ℝ) : Vec3 :=
  let matRotB := makeRotationZ (degToRad (-b))
  let matRotA := makeRotationX (degToRad a)
  let vecTool : Vec3 := ⟨0, 0, -TOOL_LENGTH_OFFSET⟩
  let currentOffset := (vecTool.applyMatrix4 matRotA).applyMatrix4 matRotB
  let homeOffset : Vec3 := ⟨0, 0, -TOOL_LENGTH_OFFSET⟩
  currentOffset.sub homeOffset

/-- The linear axis keys accepted by updateTCP. -/
inductive LinAxis where
  | x | y | z
deriving DecidableEq

/-- Select a component of a Vec3 by linear-axis key. -/
def Vec3.comp (v : Vec3) : LinAxis → ℝ
  | .x => v.x
  | .y => v.y
  | .z => v.z

/-- Select an axis bound pair from MachineLimits by linear-axis key. -/
def MachineLimits.lin (limits : MachineLimits) : LinAxis → AxisRange
  | .x => limits.x
  | .y => limits.y
  | .z => limits.z

/-- ControlPanel updateTCP: back-solve the motor value for a target TCP value
on one linear axis, then clamp it to the axis's physical motor limits.
Returns the clamped motor value passed to onUpdate. -/
noncomputable def updateTCP (limits : MachineLimits) (aAng bAng : ℝ)
    (axis : LinAxis) (targetTCPVal : ℝ) : ℝ :=
  let motorVal := targetTCPVal - (ControlPanel.delta aAng bAng).comp axis
  let limit := limits.lin axis
  max limit.min (min limit.max motorVal)

/-- MachineScene.tsx mapRange: one-dimensional affine remap. -/
noncomputable def mapRange (value inMin inMax outMin outMax : ℝ) : ℝ :=
  ((value - inMin) * (outMax - outMin)) / (inMax - inMin) + outMin

/-- The five axis keys of MachineState (keyof MachineState). -/
inductive AxisKey where
  | x | y | z | a | b
deriving DecidableEq

/-- Functional update of one axis of a MachineState, as the spread
{...prev, [key]: value} performs. -/
def MachineState.set (s : MachineState) (key : AxisKey) (value : ℝ) : MachineState :=
  match key with
  | .x => { s with x := value }
  | .y => { s with y := value }
  | .z => { s with z := value }
  | .a => { s with a := value }
  | .b => { s with b := value }

/-- The application state owned by App: the machine state plus the
auto-scan flag. -/
structure AppState where
  machine : MachineState
  isScanning : Bool

/-- App updateState: if a manual interaction happens during a scan, stop the
scan; then write the value into the given axis unmodified (no clamping). -/
def updateState (st : AppState) (key : AxisKey) (value : ℝ) : AppState :=
  { machine := st.machine.set key value,
    isScanning := if st.isScanning then false else st.isScanning }

/-- App handleReset: stop scanning and restore INITIAL_STATE. -/
def handleReset (_st : AppState) : AppState :=
  { machine := INITIAL_STATE, isScanning := false }

/-- Math.atan2(y, x), modelled as the argument of the complex number
x + y*i (range (-pi, pi], 0 at the origin, matching the JS function on
real inputs). -/
noncomputable def atan2 (y x : ℝ) : ℝ := Complex.arg { re := x, im := y }

/-- App animate, one frame: if not scanning, return the previous state
unchanged; otherwise compute the parametric orbit state (circle of radius 40
around (50, 50), sinusoidal height and tilt, look-at heading by atan2) and
clamp every component to DEFAULT_LIMITS. -/
noncomputable def animate (isScanning : Bool) (time : ℝ) (prev : MachineState) :
    MachineState :=
  if !isScanning then prev else
  let t := time * 0.001
  let centerX : ℝ := 50
  let centerY : ℝ := 50
  let radius : ℝ := 40
  let angle := t * 0.5
  let newX := centerX + Real.cos angle * radius
  let newY := centerY + Real.sin angle * radius
  let newZ := 15 + Real.sin (t * 2) * 5
  let dx := centerX - newX
  let dy := centerY - newY
  let targetB := atan2 dx dy * (180 / Real.pi)
  let baseTilt : ℝ := 10
  let newA := baseTilt + Real.sin (t * 3) * 3
  { x := max DEFAULT_LIMITS.x.min (min DEFAULT_LIMITS.x.max newX),
    y := max DEFAULT_LIMITS.y.min (min DEFAULT_LIMITS.y.max newY),
    z := max DEFAULT_LIMITS.z.min (min DEFAULT_LIMITS.z.max newZ),
    a := max DEFAULT_LIMITS.a.min (min DEFAULT_LIMITS.a.max newA),
    b := max DEFAULT_LIMITS.b.min (min DEFAULT_LIMITS.b.max targetB) }

/-- AxisControl number-input onChange handler: parseFloat the field text
(modelled as Option ℝ, none when the result is NaN); call onChange only when
the parse succeeded.  Returns the resulting stored value together with
whether an update was emitted; onChange maps the emitted value to the value
that ends up stored. -/
def AxisControl.handleNumberInput (parsed : Option ℝ) (onChange : ℝ → ℝ)
    (stored : ℝ) : ℝ × Bool :=
  match parsed with
  | none => (stored, false)
  | some val => (onChange val, true)

theorem Mat4.one_mul (m : Mat4) : Mat4.identity.mul m = m := by
  ext <;> simp [Mat4.mul, Mat4.identity]

theorem Mat4.mul_assoc (a b c : Mat4) : (a.mul b).mul c = a.mul (b.mul c) := by
  ext <;> (simp only [Mat4.mul]; ring)

/-- C1: for every input (x, y, z, a, b), the forward-kinematics pose matrix
equals the composition T * Rb * Ra * Tool, with Rb the rotation about the
vertical axis by -degToRad(b) (B sign-negated), Ra the rotation about the
local horizontal axis by degToRad(a), and Tool = translate(0, 0,
-TOOL_LENGTH_OFFSET); the output pose keeps that matrix's rotation block and
replaces its translation column by M.translation minus Home.translation,
Home being the same composition at (0, 0, 0, 0, 0). -/
theorem C1_forward_pose_composition (x y z a b : ℝ) :
    calculateTCP x y z a b =
      (makeTranslation x y z).mul
        ((makeRotationZ (degToRad (-b))).mul
          ((makeRotationX (degToRad a)).mul
            (makeTranslation 0 0 (-TOOL_LENGTH_OFFSET)))) ∧
    makeRotationZ (degToRad (-b)) = makeRotationZ (-degToRad b) ∧
    displayMatrix x y z a b =
      { calculateTCP x y z a b with
          m03 := (calculateTCP x y z a b).m03 - (calculateTCP 0 0 0 0 0).m03,
          m13 := (calculateTCP x y z a b).m13 - (calculateTCP 0 0 0 0 0).m13,
          m23 := (calculateTCP x y z a b).m23 - (calculateTCP 0 0 0 0 0).m23 } := by
  refine ⟨?_, ?_, ?_⟩
  · show (((Mat4.identity.mul (makeTranslation x y z)).mul
        (makeRotationZ (degToRad (-b)))).mul
        (makeRotationX (degToRad a))).mul
        (makeTranslation 0 0 (-TOOL_LENGTH_OFFSET)) = _
    rw [Mat4.one_mul, Mat4.mul_assoc, Mat4.mul_assoc]
  · have h : degToRad (-b) = -degToRad b := by simp [degToRad]
    rw [h]
  · ext <;>
      simp [displayMatrix, relTranslation, homePos, setFromMatrixPosition]

set_option maxHeartbeats 800000 in
theorem calculateTCP_entries (x y z a b : ℝ) :
    calculateTCP x y z a b =
      ⟨Real.cos (degToRad (-b)),
       -(Real.sin (degToRad (-b)) * Real.cos (degToRad a)),
       Real.sin (degToRad (-b)) * Real.sin (degToRad a),
       x - TOOL_LENGTH_OFFSET * (Real.sin (degToRad (-b)) * Real.sin (degToRad a)),
       Real.sin (degToRad (-b)),
       Real.cos (degToRad (-b)) * Real.cos (degToRad a),
       -(Real.cos (degToRad (-b)) * Real.sin (degToRad a)),
       y + TOOL_LENGTH_OFFSET * (Real.cos (degToRad (-b)) * Real.sin (degToRad a)),
       0,
       Real.sin (degToRad a),
       Real.cos (degToRad a),
       z - TOOL_LENGTH_OFFSET * Real.cos (degToRad a),
       0, 0, 0, 1⟩ := by
  ext <;>
    (simp only [calculateTCP, Mat4.mul, Mat4.identity, makeTranslation,
      makeRotationZ, makeRotationX]; ring)

theorem ControlPanel.delta_entries (a b : ℝ) :
    ControlPanel.delta a b =
      ⟨-(TOOL_LENGTH_OFFSET * (Real.sin (degToRad (-b)) * Real.sin (degToRad a))),
       TOOL_LENGTH_OFFSET * (Real.cos (degToRad (-b)) * Real.sin (degToRad a)),
       TOOL_LENGTH_OFFSET - TOOL_LENGTH_OFFSET * Real.cos (degToRad a)⟩ := by
  ext <;>
    simp [ControlPanel.delta, Vec3.applyMatrix4, Vec3.sub,
      makeRotationZ, makeRotationX] <;> ring

/-- C7: for every pair of angles (a, b) and every motor position (x, y, z),
the tool-offset delta computed by the control panel (rotating
(0, 0, -TOOL_LENGTH_OFFSET) by Ra then Rb and subtracting the home tool
vector) equals, componentwise, the displacement the matrix readout derives
from the forward kinematics (home-relative pose translation minus the raw
motor position): the two independently coded computations agree. -/
theorem C7_delta_computations_agree (x y z a b : ℝ) :
    matrixDisplayDelta x y z a b = ControlPanel.delta a b := by
  rw [ControlPanel.delta_entries]
  ext <;>
    simp [matrixDisplayDelta, relTranslation, homePos, setFromMatrixPosition,
      calculateTCP_entries, degToRad] <;> ring

/-- Inverse offset as the spec's section 4.2 words it (for comparison with
the implementation): offset = Ra * Rb * toolVector - homeToolVector, the
tool vector multiplied by Rb first and the result by Ra, with the same
rotation conventions and B sign negation as the forward kinematics. -/
noncomputable def specOffset (a b : ℝ) : Vec3 :=
  let matRotB := makeRotationZ (degToRad (-b))
  let matRotA := makeRotationX (degToRad a)
  let vecTool : Vec3 := ⟨0, 0, -TOOL_LENGTH_OFFSET⟩
  ((vecTool.applyMatrix4 matRotB).applyMatrix4 matRotA).sub vecTool

/-- C2 fails as stated: at a = 90, b = 90 the implementation's offset
(Rb applied after Ra) is (25, 0, 25), while the spec's formula
Ra * Rb * toolVector - homeToolVector gives (0, 25, 25). -/
theorem C2_counterexample : ControlPanel.delta 90 90 ≠ specOffset 90 90 := by
  have h90 : degToRad 90 = Real.pi / 2 := by simp only [degToRad]; ring
  have hn : degToRad (-(90 : ℝ)) = -(Real.pi / 2) := by simp only [degToRad]; ring
  have h1 : ControlPanel.delta 90 90 = ⟨25, 0, 25⟩ := by
    rw [ControlPanel.delta_entries]
    ext <;>
      norm_num [hn, h90, Real.sin_neg, Real.cos_neg, Real.sin_pi_div_two,
        Real.cos_pi_div_two, TOOL_LENGTH_OFFSET]
  have h2 : specOffset 90 90 = ⟨0, 25, 25⟩ := by
    ext <;>
      norm_num [specOffset, Vec3.applyMatrix4, Vec3.sub, makeRotationZ,
        makeRotationX, hn, h90, Real.sin_neg, Real.cos_neg,
        Real.sin_pi_div_two, Real.cos_pi_div_two, TOOL_LENGTH_OFFSET]
  rw [h1, h2]
  intro hEq
  have hx := congrArg Vec3.x hEq
  simp at hx

/-- C2 amended: for every pair of angles (a, b), the inverse offset vector
returned for the UI equals Rb * Ra * toolVector - homeToolVector (B outer,
A inner, the same composition order as the forward kinematics), with
toolVector = homeToolVector = (0, 0, -TOOL_LENGTH_OFFSET); equivalently the
offset is (Rb * Ra - I) applied to the tool vector. -/
theorem C2_amended_offset_formula (a b : ℝ) :
    ControlPanel.delta a b =
      (Vec3.applyMatrix4 ⟨0, 0, -TOOL_LENGTH_OFFSET⟩
        ((makeRotationZ (degToRad (-b))).mul (makeRotationX (degToRad a)))).sub
        ⟨0, 0, -TOOL_LENGTH_OFFSET⟩ := by
  rw [ControlPanel.delta_entries]
  ext <;>
    simp [Vec3.applyMatrix4, Vec3.sub, Mat4.mul, makeRotationZ,
      makeRotationX] <;> ring

theorem relTranslation_split (x y z a b : ℝ) :
    relTranslation x y z a b =
      ⟨x + (ControlPanel.delta a b).x, y + (ControlPanel.delta a b).y,
       z + (ControlPanel.delta a b).z⟩ := by
  rw [ControlPanel.delta_entries]
  ext <;>
    simp [relTranslation, homePos, setFromMatrixPosition, calculateTCP_entries,
      degToRad] <;> ring

/-- Functional update of one component of a Vec3 by linear-axis key. -/
def Vec3.setComp (v : Vec3) : LinAxis → ℝ → Vec3
  | .x, r => { v with x := r }
  | .y, r => { v with y := r }
  | .z, r => { v with z := r }

/-- C3: round-trip of a TCP-space write.  For every target TCP value v on a
linear axis and every pair of angles, back-solving the motor value, clamping
it into the axis limits, and evaluating the forward-kinematics home-relative
translation at the clamped motor value (the other two coordinates arbitrary)
yields, on that axis, clampedMotorValue + offset; when the unclamped motor
value already lies within the limits this equals v. -/
theorem C3_tcp_write_round_trip (limits : MachineLimits) (axis : LinAxis)
    (v aAng bAng x y z : ℝ) :
    (relTranslation
        (Vec3.setComp ⟨x, y, z⟩ axis (updateTCP limits aAng bAng axis v)).x
        (Vec3.setComp ⟨x, y, z⟩ axis (updateTCP limits aAng bAng axis v)).y
        (Vec3.setComp ⟨x, y, z⟩ axis (updateTCP limits aAng bAng axis v)).z
        aAng bAng).comp axis
      = updateTCP limits aAng bAng axis v +
          (ControlPanel.delta aAng bAng).comp axis
    ∧ ((limits.lin axis).min ≤ v - (ControlPanel.delta aAng bAng).comp axis →
       v - (ControlPanel.delta aAng bAng).comp axis ≤ (limits.lin axis).max →
       (relTranslation
          (Vec3.setComp ⟨x, y, z⟩ axis (updateTCP limits aAng bAng axis v)).x
          (Vec3.setComp ⟨x, y, z⟩ axis (updateTCP limits aAng bAng axis v)).y
          (Vec3.setComp ⟨x, y, z⟩ axis (updateTCP limits aAng bAng axis v)).z
          aAng bAng).comp axis = v) := by
  constructor
  · cases axis <;> simp [Vec3.setComp, Vec3.comp, relTranslation_split]
  · intro h1 h2
    have hm : updateTCP limits aAng bAng axis v =
        v - (ControlPanel.delta aAng bAng).comp axis := by
      simp only [updateTCP]
      rw [min_eq_right h2, max_eq_right h1]
    cases axis <;>
      simp [Vec3.setComp, Vec3.comp, relTranslation_split, hm]

/-- C3 witness: at limits = DEFAULT_LIMITS, axis x, target 5, angles (0, 0)
and base position (0, 0, 0), no clamping occurs and the realized
home-relative translation on x is exactly 5. -/
theorem C3_tcp_write_round_trip_witness :
    (DEFAULT_LIMITS.lin .x).min ≤ 5 - (ControlPanel.delta 0 0).comp .x
    ∧ 5 - (ControlPanel.delta 0 0).comp .x ≤ (DEFAULT_LIMITS.lin .x).max
    ∧ (relTranslation
        (Vec3.setComp ⟨0, 0, 0⟩ .x (updateTCP DEFAULT_LIMITS 0 0 .x 5)).x
        (Vec3.setComp ⟨0, 0, 0⟩ .x (updateTCP DEFAULT_LIMITS 0 0 .x 5)).y
        (Vec3.setComp ⟨0, 0, 0⟩ .x (updateTCP DEFAULT_LIMITS 0 0 .x 5)).z
        0 0).comp .x = 5 :=
  ⟨by norm_num [DEFAULT_LIMITS, MachineLimits.lin, ControlPanel.delta_entries,
      Vec3.comp, degToRad],
   by norm_num [DEFAULT_LIMITS, MachineLimits.lin, ControlPanel.delta_entries,
      Vec3.comp, degToRad],
   (C3_tcp_write_round_trip DEFAULT_LIMITS .x 5 0 0 0 0 0).2
     (by norm_num [DEFAULT_LIMITS, MachineLimits.lin,
        ControlPanel.delta_entries, Vec3.comp, degToRad])
     (by norm_num [DEFAULT_LIMITS, MachineLimits.lin,
        ControlPanel.delta_entries, Vec3.comp, degToRad])⟩

theorem ControlPanel.delta_zero : ControlPanel.delta 0 0 = ⟨0, 0, 0⟩ := by
  rw [ControlPanel.delta_entries]
  ext <;> simp [degToRad]

/-- C5: for every (x, y, z) with a = 0 and b = 0, the home-relative
forward-kinematics translation equals (x, y, z) exactly; the equality
survives the epsilon-cleanup-and-rounding display step (the displayed
components equal the same cleanup and rounding applied to the raw inputs);
in particular at the all-zero state the translation is exactly (0, 0, 0),
also after cleanup. -/
theorem C5_zero_angles_translation_exact (x y z : ℝ) :
    relTranslation x y z 0 0 = ⟨x, y, z⟩
    ∧ toFixed2 (cleanFloat (relTranslation x y z 0 0).x) =
        toFixed2 (cleanFloat x)
    ∧ toFixed2 (cleanFloat (relTranslation x y z 0 0).y) =
        toFixed2 (cleanFloat y)
    ∧ toFixed2 (cleanFloat (relTranslation x y z 0 0).z) =
        toFixed2 (cleanFloat z)
    ∧ relTranslation 0 0 0 0 0 = ⟨0, 0, 0⟩
    ∧ cleanFloat (relTranslation 0 0 0 0 0).x = 0
    ∧ cleanFloat (relTranslation 0 0 0 0 0).y = 0
    ∧ cleanFloat (relTranslation 0 0 0 0 0).z = 0 := by
  have h : ∀ u v w : ℝ, relTranslation u v w 0 0 = ⟨u, v, w⟩ := by
    intro u v w
    rw [relTranslation_split, ControlPanel.delta_zero]
    ext <;> simp
  refine ⟨h x y z, ?_, ?_, ?_, h 0 0 0, ?_, ?_, ?_⟩ <;>
    simp [h, cleanFloat]

/-- C6 fails as stated: at state (50, 50, 10, 0, 0) the home-relative pose
translation is (50, 50, 10), not (0, 0, 0). -/
theorem C6_counterexample : relTranslation 50 50 10 0 0 ≠ ⟨0, 0, 0⟩ := by
  rw [relTranslation_split, ControlPanel.delta_zero]
  intro hEq
  have hx := congrArg Vec3.x hEq
  simp at hx

/-- C6 amended: with TOOL_LENGTH_OFFSET = 25, at state (50, 50, 10, 0, 0)
the home-relative pose translation is (50, 50, 10), the rotation-induced
delta readout is (0, 0, 0), and the raw TCP position in absolute terms is
(50, 50, 10 - 25). -/
theorem C6_concrete_scenario :
    TOOL_LENGTH_OFFSET = 25
    ∧ relTranslation 50 50 10 0 0 = ⟨50, 50, 10⟩
    ∧ matrixDisplayDelta 50 50 10 0 0 = ⟨0, 0, 0⟩
    ∧ setFromMatrixPosition (calculateTCP 50 50 10 0 0) = ⟨50, 50, 10 - 25⟩ := by
  refine ⟨rfl, ?_, ?_, ?_⟩
  · rw [relTranslation_split, ControlPanel.delta_zero]
    ext <;> simp
  · ext <;>
      simp [matrixDisplayDelta, relTranslation_split, ControlPanel.delta_zero]
  · ext <;>
      simp [calculateTCP_entries, setFromMatrixPosition, degToRad,
        TOOL_LENGTH_OFFSET]

/-- C4 fails on the code: App updateState performs no clamping, so a direct
manual edit writing 999 into axis a is stored verbatim, outside the
configured limit [-45, 45] of DEFAULT_LIMITS. -/
theorem C4_unclamped_manual_edit :
    (updateState ⟨INITIAL_STATE, false⟩ .a 999).machine.a = 999
    ∧ ¬(DEFAULT_LIMITS.a.min ≤
          (updateState ⟨INITIAL_STATE, false⟩ .a 999).machine.a
        ∧ (updateState ⟨INITIAL_STATE, false⟩ .a 999).machine.a ≤
            DEFAULT_LIMITS.a.max) := by
  constructor
  · rfl
  · norm_num [updateState, MachineState.set, INITIAL_STATE, DEFAULT_LIMITS]

/-- C8: any manual axis edit leaves the scanning flag false, and the
per-frame orbit writer returns the previous machine state untouched whenever
the flag is false, so after a manual edit the frame callback cannot
overwrite the user's change. -/
theorem C8_manual_edit_halts_scan (st : AppState) (key : AxisKey) (value : ℝ) :
    (updateState st key value).isScanning = false
    ∧ ∀ (time : ℝ) (prev : MachineState),
        animate (updateState st key value).isScanning time prev = prev := by
  have h : (updateState st key value).isScanning = false := by
    simp only [updateState]
    cases st.isScanning <;> simp
  exact ⟨h, fun time prev => by rw [h]; simp [animate]⟩

/-- C9: when the text in a numeric axis input does not parse as a number
(parseFloat yields NaN, modelled as none), no update is emitted and the
stored axis value is unchanged; an update is emitted exactly when the input
parses. -/
theorem C9_nan_input_ignored (onChange : ℝ → ℝ) (stored : ℝ) :
    AxisControl.handleNumberInput none onChange stored = (stored, false)
    ∧ (∀ v : ℝ, AxisControl.handleNumberInput (some v) onChange stored =
        (onChange v, true))
    ∧ ∀ parsed : Option ℝ,
        ((AxisControl.handleNumberInput parsed onChange stored).2 = true ↔
          parsed.isSome = true) := by
  refine ⟨rfl, fun v => rfl, fun parsed => ?_⟩
  cases parsed <;> simp [AxisControl.handleNumberInput]

/-- C10: under the precondition inMin ≠ inMax, mapRange is the affine remap
((value - inMin) * (outMax - outMin)) / (inMax - inMin) + outMin, it sends
inMin to outMin and inMax to outMax, and its division denominator is
nonzero; the denominator is zero exactly when inMin = inMax. -/
theorem C10_mapRange_affine (value inMin inMax outMin outMax : ℝ)
    (h : inMin ≠ inMax) :
    mapRange value inMin inMax outMin outMax =
      ((value - inMin) * (outMax - outMin)) / (inMax - inMin) + outMin
    ∧ mapRange inMin inMin inMax outMin outMax = outMin
    ∧ mapRange inMax inMin inMax outMin outMax = outMax
    ∧ inMax - inMin ≠ 0
    ∧ (inMax - inMin = 0 ↔ inMin = inMax) := by
  have hd : inMax - inMin ≠ 0 := sub_ne_zero.mpr (Ne.symm h)
  refine ⟨rfl, ?_, ?_, hd, ?_⟩
  · simp [mapRange]
  · simp only [mapRange]
    field_simp
  · simp [sub_eq_zero, eq_comm]

/-- C10 witness: with input range [0, 1] and output range [2, 5], the
precondition holds and mapRange sends the input maximum 1 to the output
maximum 5. -/
theorem C10_mapRange_affine_witness :
    (0 : ℝ) ≠ 1 ∧ mapRange 1 0 1 2 5 = 5 :=
  ⟨by norm_num, (C10_mapRange_affine 1 0 1 2 5 (by norm_num)).2.2.1⟩
